import Mathlib

/-!
Verification of the Java build-rule pipeline in `java/builder.go`
(BubbleGumOS/android_build_soong).

The Go file is shallowly embedded: an `android.Path` is modelled by the
string its `String()` method renders (the only operation the file uses),
a `classpath` is a list of such strings, a declared build rule
(`android.ModuleBuildParams`) is a record, and the `classpath` rendering
methods are translated function by function.  `panic` and fatal module
errors are modelled with `Except String`.
-/

namespace SoongJavaBuilder

/-- An `android.Path`, modelled by the string its `String()` method renders. -/
abbrev Path := String

/-- The `String()` method of `android.Path`; the identity in this embedding. -/
def pathString (p : Path) : String := p

/-- Go `type classpath []android.Path` from `java/builder.go`. -/
abbrev classpath := List Path

/-- Go `strings.TrimSuffix(s, suffix)`: drops `suffix` from the end of `s`
when present, otherwise returns `s` unchanged.  (Go slices bytes; on the
ASCII paths at issue, byte and character indexing agree.) -/
def trimSuffix (s suffix : String) : String :=
  if suffix.data.isSuffixOf s.data then
    ⟨s.data.take (s.data.length - suffix.data.length)⟩
  else
    s

/-- `classpath.Strings` from `java/builder.go`: the entries' rendered paths. -/
def classpath.Strings (x : classpath) : List String :=
  x.map pathString

theorem classpath.Strings_eq (x : classpath) : x.Strings = x :=
  List.map_id' x

/-- `classpath.JavaSourcepath`: `-sourcepath` argument; explicit-empty form
`-sourcepath ""` when the list is empty. -/
def classpath.JavaSourcepath (x : classpath) : String :=
  if x.length > 0 then
    "-sourcepath " ++ String.intercalate ":" x.Strings
  else
    "-sourcepath \"\""

/-- `classpath.JavaClasspath`: `-classpath` argument; empty string (flag
omitted) when the list is empty. -/
def classpath.JavaClasspath (x : classpath) : String :=
  if x.length > 0 then
    "-classpath " ++ String.intercalate ":" x.Strings
  else
    ""

/-- `classpath.JavaProcessorpath`: `-processorpath` argument; empty string
when the list is empty. -/
def classpath.JavaProcessorpath (x : classpath) : String :=
  if x.length > 0 then
    "-processorpath " ++ String.intercalate ":" x.Strings
  else
    ""

/-- `classpath.JavaBootClasspath`: `-bootclasspath` argument; with an empty
list, `-bootclasspath ""` when `forceEmpty`, otherwise the empty string. -/
def classpath.JavaBootClasspath (x : classpath) (forceEmpty : Bool) : String :=
  if x.length > 0 then
    "-bootclasspath " ++ String.intercalate ":" x.Strings
  else if forceEmpty then
    "-bootclasspath \"\""
  else
    ""

/-- `classpath.JavaSystemModules`: `--system=` argument.  The Go function
panics with "more than one system module" when the list has more than one
entry; the panic is modelled as `Except.error`.  With one entry the trailing
`lib/modules` is trimmed; with none, `--system=none` when `forceEmpty`,
otherwise the empty string. -/
def classpath.JavaSystemModules (x : classpath) (forceEmpty : Bool) :
    Except String String :=
  match x with
  | [] => if forceEmpty then .ok "--system=none" else .ok ""
  | [p] => .ok ("--system=" ++ trimSuffix (pathString p) "lib/modules")
  | _ :: _ :: _ => .error "more than one system module"

/-- `classpath.DesugarBootClasspath`: one `--bootclasspath_entry` flag per
entry, in order.  (The Go nil-check returns nil, which coincides with the
empty list here.) -/
def classpath.DesugarBootClasspath (x : classpath) : List String :=
  x.map (fun v => "--bootclasspath_entry " ++ pathString v)

/-- `classpath.DesugarClasspath`: one `--classpath_entry` flag per entry. -/
def classpath.DesugarClasspath (x : classpath) : List String :=
  x.map (fun v => "--classpath_entry " ++ pathString v)

/-- `javaBuilderFlags` from `java/builder.go`.  (The `classpath` field is
listed after the other `classpath`-typed fields so that the field name does
not shadow the type inside the declaration; Go field order carries no
meaning.) -/
structure javaBuilderFlags where
  javacFlags : String
  dxFlags : String
  bootClasspath : classpath
  systemModules : classpath
  classpath : classpath
  desugarFlags : String
  aidlFlags : String
  javaVersion : String
  protoFlags : String
  protoOutFlag : String

/-- The slice of `android.ModuleContext` the builder uses: `ctx.Device()`,
`ctx.AConfig().UseOpenJDK9()`, and `android.PathForModuleOut(ctx, name)`. -/
structure ModuleContext where
  device : Bool
  useOpenJDK9 : Bool
  moduleOut : String → Path

/-- The fields of `android.ModuleBuildParams` that `java/builder.go` fills
in: the rule (by name), description, output, single or plural inputs and
implicit dependencies, and the named-argument map (as an association list
in the source's literal order). -/
structure ModuleBuildParams where
  rule : String
  description : String
  output : Path
  input : Option Path
  inputs : List Path
  implicit : Option Path
  implicits : List Path
  args : List (String × String)

/-- Look up a named argument of a declared rule (empty when absent). -/
def getArg (p : ModuleBuildParams) (k : String) : String :=
  (p.args.lookup k).getD ""

/-- `transformJavaToClasses` from `java/builder.go`: appends `srcJars` to
`deps`; for `javaVersion = "1.9"` renders the `bootClasspath` argument from
the system modules and appends those to the deps (a `JavaSystemModules`
panic aborts before any rule is declared), otherwise renders it from the
boot classpath and appends that instead; then appends the user classpath
and declares one build rule. -/
def transformJavaToClasses (ctx : ModuleContext) (outputFile : Path)
    (srcFiles : List Path) (srcJars : classpath)
    (flags : javaBuilderFlags) (deps : List Path)
    (intermediatesSuffix desc rule : String) :
    Except String ModuleBuildParams :=
  let deps1 := deps ++ srcJars
  let build := fun (deps2 : List Path) (bootClasspath : String) =>
    let deps3 := deps2 ++ flags.classpath
    { rule := rule
      description := desc
      output := outputFile
      input := none
      inputs := srcFiles
      implicit := none
      implicits := deps3
      args :=
        [("javacFlags", flags.javacFlags),
         ("bootClasspath", bootClasspath),
         ("sourcepath", srcJars.JavaSourcepath),
         ("classpath", flags.classpath.JavaClasspath),
         ("outDir", ctx.moduleOut ("classes" ++ intermediatesSuffix)),
         ("annoDir", ctx.moduleOut ("anno" ++ intermediatesSuffix)),
         ("javaVersion", flags.javaVersion)] : ModuleBuildParams }
  if flags.javaVersion = "1.9" then
    match flags.systemModules.JavaSystemModules ctx.device with
    | .error e => .error e
    | .ok bc => .ok (build (deps1 ++ flags.systemModules) bc)
  else
    .ok (build (deps1 ++ flags.bootClasspath)
      (flags.bootClasspath.JavaBootClasspath ctx.device))

/-- `TransformJavaToClasses` from `java/builder.go`: the plain `javac`
compile stage. -/
def TransformJavaToClasses (ctx : ModuleContext) (outputFile : Path)
    (srcFiles : List Path) (srcJars : classpath)
    (flags : javaBuilderFlags) (deps : List Path) :
    Except String ModuleBuildParams :=
  transformJavaToClasses ctx outputFile srcFiles srcJars flags deps
    "" "javac" "javac"

/-- Modelled from the spec: `ctx.ModuleErrorf` lives in the `android`
package, which is not among the embedded sources; per the spec a missing
analysis-tool artifact is a fatal configuration error that aborts the
module build before any rule is declared, so the call is modelled as an
`Except.error` carrying the message, short-circuiting the function. -/
def ModuleErrorf (msg : String) : Except String ModuleBuildParams :=
  .error msg

/-- `RunErrorProne` from `java/builder.go`: aborts with a module error when
`config.ErrorProneJar` (passed here as a parameter, since the `config`
package is external) is unset, otherwise compiles with the `errorprone`
rule. -/
def RunErrorProne (errorProneJar : String) (ctx : ModuleContext)
    (outputFile : Path) (srcFiles : List Path) (srcJars : classpath)
    (flags : javaBuilderFlags) : Except String ModuleBuildParams :=
  if errorProneJar = "" then
    ModuleErrorf "cannot build with Error Prone, missing external/error_prone?"
  else
    transformJavaToClasses ctx outputFile srcFiles srcJars flags []
      "-errorprone" "errorprone" "errorprone"

/-- `TransformJarsToJar` from `java/builder.go`: merges `jars` (in order)
with `combineJar`; a valid manifest contributes a `-m` argument and an
implicit dependency, `stripDirs` contributes `-D`. -/
def TransformJarsToJar (ctx : ModuleContext) (outputFile : Path)
    (jars : List Path) (manifest : Option Path) (stripDirs : Bool) :
    ModuleBuildParams :=
  let manifestArgsDeps : List String × List Path :=
    match manifest with
    | some m => (["-m " ++ pathString m], [m])
    | none => ([], [])
  let jarArgs := manifestArgsDeps.1 ++ (if stripDirs then ["-D"] else [])
  { rule := "combineJar"
    description := "combine jars"
    output := outputFile
    input := none
    inputs := jars
    implicit := none
    implicits := manifestArgsDeps.2
    args := [("jarArgs", String.intercalate " " jarArgs)] }

/-- `TransformDesugar` from `java/builder.go`: boot and user classpaths are
rendered one flag per entry, and every entry of both becomes an implicit
dependency. -/
def TransformDesugar (ctx : ModuleContext) (outputFile : Path)
    (classesJar : Path) (flags : javaBuilderFlags) : ModuleBuildParams :=
  let dumpDir := ctx.moduleOut "desugar_dumped_classes"
  let javaFlags :=
    if ctx.useOpenJDK9 then
      "--add-opens java.base/java.lang.invoke=ALL-UNNAMED"
    else
      ""
  let desugarFlags :=
    flags.bootClasspath.DesugarBootClasspath ++ flags.classpath.DesugarClasspath
  let deps := flags.bootClasspath ++ flags.classpath
  { rule := "desugar"
    description := "desugar"
    output := outputFile
    input := some classesJar
    inputs := []
    implicit := none
    implicits := deps
    args :=
      [("dumpDir", dumpDir),
       ("javaFlags", javaFlags),
       ("classpathFlags", String.intercalate " " desugarFlags),
       ("desugarFlags", flags.desugarFlags)] }

/-- The configuration strings interpolated into the `javac` rule's command
template (the `config` package is external; its values are parameters). -/
structure JavacConfig where
  JavacWrapper : String
  JavacCmd : String
  JavacHeapFlags : String
  CommonJdkFlags : String
  SoongZipCmd : String

/-- The command template of the `javac` rule in `java/builder.go`, with the
named parameters and `$out` substituted. -/
def javacCommand (cfg : JavacConfig)
    (javacFlags sourcepath bootClasspath cp javaVersion outDir annoDir
      out : String) : String :=
  "rm -rf \"" ++ outDir ++ "\" \"" ++ annoDir ++ "\" && mkdir -p \"" ++
  outDir ++ "\" \"" ++ annoDir ++ "\" && " ++
  cfg.JavacWrapper ++ cfg.JavacCmd ++ " " ++ cfg.JavacHeapFlags ++ " " ++
  cfg.CommonJdkFlags ++ " " ++
  javacFlags ++ " " ++ sourcepath ++ " " ++ bootClasspath ++ " " ++ cp ++
  " " ++
  "-source " ++ javaVersion ++ " -target " ++ javaVersion ++ " " ++
  "-d " ++ outDir ++ " -s " ++ annoDir ++ " @" ++ out ++ ".rsp && " ++
  cfg.SoongZipCmd ++ " -jar -o " ++ out ++ " -C " ++ outDir ++ " -D " ++
  outDir

/-- The `javac` rule's command, rendered from a declared rule's argument
map and output, as the build engine would substitute them. -/
def javacCommandOfParams (cfg : JavacConfig) (p : ModuleBuildParams) :
    String :=
  javacCommand cfg (getArg p "javacFlags") (getArg p "sourcepath")
    (getArg p "bootClasspath") (getArg p "classpath")
    (getArg p "javaVersion") (getArg p "outDir") (getArg p "annoDir")
    p.output

/-- The command template of the `combineJar` rule in `java/builder.go`,
with `$jarArgs`, `$out` and `$in` substituted (`$in` is the space-joined
input list). -/
def combineJarCommand (mergeZipsCmd : String) (p : ModuleBuildParams) :
    String :=
  mergeZipsCmd ++ " -j " ++ getArg p "jarArgs" ++ " " ++ p.output ++ " " ++
  String.intercalate " " p.inputs

/-- Helper: the rendered `javac` command at version tag "1.8" contains the
segment "-source 1.8 -target 1.8". -/
theorem javacCommand_source_target_1_8 (cfg : JavacConfig)
    (javacFlags sourcepath bootClasspath cp outDir annoDir out : String) :
    ∃ a b,
      javacCommand cfg javacFlags sourcepath bootClasspath cp "1.8" outDir
          annoDir out =
        a ++ "-source 1.8 -target 1.8" ++ b := by
  refine ⟨"rm -rf \"" ++ outDir ++ "\" \"" ++ annoDir ++
      "\" && mkdir -p \"" ++ outDir ++ "\" \"" ++ annoDir ++ "\" && " ++
      cfg.JavacWrapper ++ cfg.JavacCmd ++ " " ++ cfg.JavacHeapFlags ++
      " " ++ cfg.CommonJdkFlags ++ " " ++ javacFlags ++ " " ++ sourcepath ++
      " " ++ bootClasspath ++ " " ++ cp ++ " ",
    " " ++ ("-d " ++ outDir ++ " -s " ++ annoDir ++ " @" ++ out ++
      ".rsp && " ++ cfg.SoongZipCmd ++ " -jar -o " ++ out ++ " -C " ++
      outDir ++ " -D " ++ outDir), ?_⟩
  simp only [javacCommand, String.append_assoc]
  rfl

/-- Claim C1: the system-module rendering returns the empty string on zero
entries without forceEmpty, the sentinel on zero entries with forceEmpty,
the module-root flag with the trailing "lib/modules" stripped on one entry,
and on two or more entries fails with the fatal message "more than one
system module", producing no partial output. -/
theorem JavaSystemModules_rendering (x : classpath) (forceEmpty : Bool) :
    (x = [] → forceEmpty = false →
      x.JavaSystemModules forceEmpty = .ok "") ∧
    (x = [] → forceEmpty = true →
      x.JavaSystemModules forceEmpty = .ok "--system=none") ∧
    (∀ p, x = [p] →
      x.JavaSystemModules forceEmpty =
        .ok ("--system=" ++ trimSuffix p "lib/modules")) ∧
    (2 ≤ x.length →
      x.JavaSystemModules forceEmpty =
        .error "more than one system module") := by
  refine ⟨?_, ?_, ?_, ?_⟩
  · rintro rfl rfl; rfl
  · rintro rfl rfl; rfl
  · rintro p rfl; rfl
  · intro h
    cases x with
    | nil => simp at h
    | cons a t =>
      cases t with
      | nil => simp at h
      | cons b t2 => rfl

theorem JavaSystemModules_rendering_witness :
    classpath.JavaSystemModules [] false = .ok "" ∧
    classpath.JavaSystemModules [] true = .ok "--system=none" ∧
    classpath.JavaSystemModules ["out/jdk/lib/modules"] true =
      .ok "--system=out/jdk/" ∧
    classpath.JavaSystemModules ["a.jar", "b.jar"] false =
      .error "more than one system module" :=
  ⟨(JavaSystemModules_rendering [] false).1 rfl rfl,
   (JavaSystemModules_rendering [] true).2.1 rfl rfl,
   (JavaSystemModules_rendering ["out/jdk/lib/modules"] true).2.2.1
     "out/jdk/lib/modules" rfl,
   (JavaSystemModules_rendering ["a.jar", "b.jar"] false).2.2.2
     (by decide)⟩

/-- Claim C2: with version tag "1.9" the compile declaration renders its
bootClasspath argument from the system modules and appends exactly those to
the implicit dependencies (no boot-classpath flag or entry appears); with
any other version tag it renders from the boot classpath and appends
exactly those (no system-module flag or entry appears). -/
theorem transformJavaToClasses_version_select (ctx : ModuleContext)
    (outputFile : Path) (srcFiles : List Path) (srcJars : classpath)
    (flags : javaBuilderFlags) (deps : List Path)
    (intermediatesSuffix desc rule : String) :
    (flags.javaVersion = "1.9" →
      transformJavaToClasses ctx outputFile srcFiles srcJars flags deps
          intermediatesSuffix desc rule =
        (flags.systemModules.JavaSystemModules ctx.device).map (fun bc =>
          { rule := rule
            description := desc
            output := outputFile
            input := none
            inputs := srcFiles
            implicit := none
            implicits :=
              ((deps ++ srcJars) ++ flags.systemModules) ++ flags.classpath
            args :=
              [("javacFlags", flags.javacFlags),
               ("bootClasspath", bc),
               ("sourcepath", srcJars.JavaSourcepath),
               ("classpath", flags.classpath.JavaClasspath),
               ("outDir", ctx.moduleOut ("classes" ++ intermediatesSuffix)),
               ("annoDir", ctx.moduleOut ("anno" ++ intermediatesSuffix)),
               ("javaVersion", flags.javaVersion)] })) ∧
    (flags.javaVersion ≠ "1.9" →
      transformJavaToClasses ctx outputFile srcFiles srcJars flags deps
          intermediatesSuffix desc rule =
        .ok
          { rule := rule
            description := desc
            output := outputFile
            input := none
            inputs := srcFiles
            implicit := none
            implicits :=
              ((deps ++ srcJars) ++ flags.bootClasspath) ++ flags.classpath
            args :=
              [("javacFlags", flags.javacFlags),
               ("bootClasspath",
                 flags.bootClasspath.JavaBootClasspath ctx.device),
               ("sourcepath", srcJars.JavaSourcepath),
               ("classpath", flags.classpath.JavaClasspath),
               ("outDir", ctx.moduleOut ("classes" ++ intermediatesSuffix)),
               ("annoDir", ctx.moduleOut ("anno" ++ intermediatesSuffix)),
               ("javaVersion", flags.javaVersion)] }) := by
  constructor
  · intro h
    simp only [transformJavaToClasses, h, if_pos]
    cases hsm : classpath.JavaSystemModules flags.systemModules ctx.device with
    | error e => simp [Except.map]
    | ok bc => simp [Except.map]
  · intro h
    simp only [transformJavaToClasses, if_neg h]

theorem transformJavaToClasses_version_select_witness :
    transformJavaToClasses ⟨true, false, fun s => "out/" ++ s⟩ "classes.jar"
        ["A.java"] [] ⟨"", "", ["boot.jar"], ["sys/lib/modules"], ["cp.jar"],
          "", "", "1.9", "", ""⟩ [] "" "javac" "javac" =
      .ok
        { rule := "javac"
          description := "javac"
          output := "classes.jar"
          input := none
          inputs := ["A.java"]
          implicit := none
          implicits := ["sys/lib/modules", "cp.jar"]
          args :=
            [("javacFlags", ""),
             ("bootClasspath", "--system=sys/"),
             ("sourcepath", "-sourcepath \"\""),
             ("classpath", "-classpath cp.jar"),
             ("outDir", "out/classes"),
             ("annoDir", "out/anno"),
             ("javaVersion", "1.9")] } ∧
    transformJavaToClasses ⟨true, false, fun s => "out/" ++ s⟩ "classes.jar"
        ["A.java"] [] ⟨"", "", ["boot.jar"], ["sys/lib/modules"], ["cp.jar"],
          "", "", "1.8", "", ""⟩ [] "" "javac" "javac" =
      .ok
        { rule := "javac"
          description := "javac"
          output := "classes.jar"
          input := none
          inputs := ["A.java"]
          implicit := none
          implicits := ["boot.jar", "cp.jar"]
          args :=
            [("javacFlags", ""),
             ("bootClasspath", "-bootclasspath boot.jar"),
             ("sourcepath", "-sourcepath \"\""),
             ("classpath", "-classpath cp.jar"),
             ("outDir", "out/classes"),
             ("annoDir", "out/anno"),
             ("javaVersion", "1.8")] } :=
  ⟨(transformJavaToClasses_version_select ⟨true, false, fun s => "out/" ++ s⟩
      "classes.jar" ["A.java"] []
      ⟨"", "", ["boot.jar"], ["sys/lib/modules"], ["cp.jar"], "", "", "1.9",
        "", ""⟩ [] "" "javac" "javac").1 rfl,
   (transformJavaToClasses_version_select ⟨true, false, fun s => "out/" ++ s⟩
      "classes.jar" ["A.java"] []
      ⟨"", "", ["boot.jar"], ["sys/lib/modules"], ["cp.jar"], "", "", "1.8",
        "", ""⟩ [] "" "javac" "javac").2 (by decide)⟩

/-- Claim C3: when the Error Prone jar is not configured, RunErrorProne
aborts with an error naming the missing component, and no build rule is
declared. -/
theorem RunErrorProne_missing_jar (errorProneJar : String)
    (ctx : ModuleContext) (outputFile : Path) (srcFiles : List Path)
    (srcJars : classpath) (flags : javaBuilderFlags)
    (h : errorProneJar = "") :
    RunErrorProne errorProneJar ctx outputFile srcFiles srcJars flags =
      .error "cannot build with Error Prone, missing external/error_prone?" := by
  subst h; rfl

theorem RunErrorProne_missing_jar_witness :
    RunErrorProne "" ⟨true, false, fun s => "out/" ++ s⟩ "out.jar"
        ["A.java"] [] ⟨"", "", [], [], [], "", "", "1.8", "", ""⟩ =
      .error "cannot build with Error Prone, missing external/error_prone?" :=
  RunErrorProne_missing_jar "" ⟨true, false, fun s => "out/" ++ s⟩ "out.jar"
    ["A.java"] [] ⟨"", "", [], [], [], "", "", "1.8", "", ""⟩ rfl

/-- Claim C4 counterexample: as stated the claim fails.  With the same two
source files, empty classpaths and version "1.8": on a non-device (host)
invocation the bootClasspath argument renders empty (no bootclasspath flag),
and with a source archive present the sourcepath argument is not the
explicit-empty form. -/
theorem Compile_scenario_1_8_counterexample :
    (∃ p, TransformJavaToClasses ⟨false, false, fun s => "out/" ++ s⟩
        "classes.jar" ["A.java", "B.java"] []
        ⟨"", "", [], [], [], "", "", "1.8", "", ""⟩ [] = .ok p ∧
      getArg p "bootClasspath" = "") ∧
    (∃ q, TransformJavaToClasses ⟨true, false, fun s => "out/" ++ s⟩
        "classes.jar" ["A.java", "B.java"] ["srcs.jar"]
        ⟨"", "", [], [], [], "", "", "1.8", "", ""⟩ [] = .ok q ∧
      getArg q "sourcepath" = "-sourcepath srcs.jar") :=
  ⟨⟨_, rfl, rfl⟩, ⟨_, rfl, rfl⟩⟩

/-- Claim C4 (amended): for every Compile invocation with two source files,
no source archives, an empty user classpath, an empty boot classpath,
version tag "1.8", and a device target (so the boot classpath is
force-emptied), the declared arguments include the explicit-empty
sourcepath flag, omit the classpath flag, include the explicit-empty
bootclasspath flag, and the rendered command contains
"-source 1.8 -target 1.8". -/
theorem Compile_scenario_1_8 (cfg : JavacConfig) (ctx : ModuleContext)
    (outputFile : Path) (srcFiles : List Path) (srcJars : classpath)
    (flags : javaBuilderFlags) (deps : List Path)
    (hsrc : srcFiles.length = 2) (hjars : srcJars = [])
    (hcp : flags.classpath = []) (hbc : flags.bootClasspath = [])
    (hv : flags.javaVersion = "1.8") (hdev : ctx.device = true) :
    ∃ p,
      TransformJavaToClasses ctx outputFile srcFiles srcJars flags deps =
        .ok p ∧
      getArg p "sourcepath" = "-sourcepath \"\"" ∧
      getArg p "classpath" = "" ∧
      getArg p "bootClasspath" = "-bootclasspath \"\"" ∧
      ∃ a b, javacCommandOfParams cfg p =
        a ++ "-source 1.8 -target 1.8" ++ b := by
  obtain ⟨dev, jdk9, mo⟩ := ctx
  obtain ⟨jf, dxf, bc, sm, cp, df, af, jv, pf, pof⟩ := flags
  simp only at hcp hbc hv hdev
  subst hjars hcp hbc hv hdev
  refine ⟨_, rfl, rfl, rfl, rfl, ?_⟩
  exact javacCommand_source_target_1_8 cfg jf "-sourcepath \"\""
    "-bootclasspath \"\"" "" (mo "classes") (mo "anno") outputFile

theorem Compile_scenario_1_8_witness :
    ∃ p,
      TransformJavaToClasses ⟨true, false, fun s => "out/" ++ s⟩
          "classes.jar" ["A.java", "B.java"] []
          ⟨"", "", [], [], [], "", "", "1.8", "", ""⟩ [] =
        .ok p ∧
      getArg p "sourcepath" = "-sourcepath \"\"" ∧
      getArg p "classpath" = "" ∧
      getArg p "bootClasspath" = "-bootclasspath \"\"" ∧
      ∃ a b, javacCommandOfParams ⟨"", "javac", "", "", "soong_zip"⟩ p =
        a ++ "-source 1.8 -target 1.8" ++ b :=
  Compile_scenario_1_8 ⟨"", "javac", "", "", "soong_zip"⟩
    ⟨true, false, fun s => "out/" ++ s⟩ "classes.jar" ["A.java", "B.java"]
    [] ⟨"", "", [], [], [], "", "", "1.8", "", ""⟩ [] rfl rfl rfl rfl rfl rfl

/-- Claim C5: the sourcepath rendering yields the explicit-empty form on an
empty classpath and the colon-joined entries, in order, otherwise. -/
theorem JavaSourcepath_rendering (x : classpath) :
    (x = [] → x.JavaSourcepath = "-sourcepath \"\"") ∧
    (x ≠ [] →
      x.JavaSourcepath = "-sourcepath " ++ String.intercalate ":" x) := by
  constructor
  · rintro rfl; rfl
  · intro h
    have hl : 0 < x.length := List.length_pos.mpr h
    simp [classpath.JavaSourcepath, hl, classpath.Strings_eq]

theorem JavaSourcepath_rendering_witness :
    classpath.JavaSourcepath [] = "-sourcepath \"\"" ∧
    classpath.JavaSourcepath ["a.jar", "b.jar"] =
      "-sourcepath a.jar:b.jar" :=
  ⟨(JavaSourcepath_rendering []).1 rfl,
   (JavaSourcepath_rendering ["a.jar", "b.jar"]).2 (by decide)⟩

/-- Claim C6: the classpath rendering yields the empty string (flag
omitted) on an empty classpath and the colon-joined entries, in order,
prefixed by "-classpath ", otherwise. -/
theorem JavaClasspath_rendering (x : classpath) :
    (x = [] → x.JavaClasspath = "") ∧
    (x ≠ [] →
      x.JavaClasspath = "-classpath " ++ String.intercalate ":" x) := by
  constructor
  · rintro rfl; rfl
  · intro h
    have hl : 0 < x.length := List.length_pos.mpr h
    simp [classpath.JavaClasspath, hl, classpath.Strings_eq]

theorem JavaClasspath_rendering_witness :
    classpath.JavaClasspath [] = "" ∧
    classpath.JavaClasspath ["a.jar", "b.jar"] = "-classpath a.jar:b.jar" :=
  ⟨(JavaClasspath_rendering []).1 rfl,
   (JavaClasspath_rendering ["a.jar", "b.jar"]).2 (by decide)⟩

/-- Claim C7: the merge-archives declaration lists the input archives in
exactly the declared order, and the rendered command is the rendered prefix
(rule binary, jar arguments, output) followed by the inputs joined in that
order, so two invocations differing only in input order produce commands
differing exactly in that segment. -/
theorem TransformJarsToJar_order_preserved (ctx : ModuleContext)
    (outputFile : Path) (manifest : Option Path) (stripDirs : Bool)
    (mergeZipsCmd : String) (jars1 jars2 : List Path) :
    (TransformJarsToJar ctx outputFile jars1 manifest stripDirs).inputs =
      jars1 ∧
    (TransformJarsToJar ctx outputFile jars2 manifest stripDirs).inputs =
      jars2 ∧
    ∃ pre,
      combineJarCommand mergeZipsCmd
          (TransformJarsToJar ctx outputFile jars1 manifest stripDirs) =
        pre ++ String.intercalate " " jars1 ∧
      combineJarCommand mergeZipsCmd
          (TransformJarsToJar ctx outputFile jars2 manifest stripDirs) =
        pre ++ String.intercalate " " jars2 := by
  refine ⟨rfl, rfl,
    ⟨mergeZipsCmd ++ (" -j " ++
      (getArg (TransformJarsToJar ctx outputFile jars1 manifest stripDirs)
          "jarArgs" ++
        (" " ++ (outputFile ++ " ")))), ?_, ?_⟩⟩ <;>
  · simp only [combineJarCommand, String.append_assoc]
    rfl

/-- Claim C8: the desugar declaration renders the boot classpath and user
classpath one flag per entry, in original order, and every entry of both
becomes an implicit dependency. -/
theorem TransformDesugar_per_entry_flags (ctx : ModuleContext)
    (outputFile classesJar : Path) (flags : javaBuilderFlags) :
    (TransformDesugar ctx outputFile classesJar flags).implicits =
      flags.bootClasspath ++ flags.classpath ∧
    getArg (TransformDesugar ctx outputFile classesJar flags)
        "classpathFlags" =
      String.intercalate " "
        (flags.bootClasspath.map (fun e => "--bootclasspath_entry " ++ e) ++
          flags.classpath.map (fun e => "--classpath_entry " ++ e)) :=
  ⟨rfl, rfl⟩

/-- Claim C9: every rendering function is total on the empty (or absent)
classpath and returns the tool-appropriate explicitly-empty or omitted
form; in particular the system-module renderer succeeds there. -/
theorem renderers_total_on_empty (forceEmpty : Bool) :
    classpath.JavaSourcepath [] = "-sourcepath \"\"" ∧
    classpath.JavaClasspath [] = "" ∧
    classpath.JavaProcessorpath [] = "" ∧
    classpath.JavaBootClasspath [] forceEmpty =
      (if forceEmpty then "-bootclasspath \"\"" else "") ∧
    classpath.JavaSystemModules [] forceEmpty =
      .ok (if forceEmpty then "--system=none" else "") ∧
    classpath.DesugarBootClasspath [] = [] ∧
    classpath.DesugarClasspath [] = [] ∧
    classpath.Strings [] = [] := by
  cases forceEmpty <;> exact ⟨rfl, rfl, rfl, rfl, rfl, rfl, rfl, rfl⟩

/-- Claim C10: on a single entry whose path does not end in "lib/modules",
the system-module rendering returns the full, unmodified path after
"--system=", raising no error. -/
theorem JavaSystemModules_no_suffix_untouched (p : Path) (forceEmpty : Bool)
    (h : "lib/modules".data.isSuffixOf p.data = false) :
    classpath.JavaSystemModules [p] forceEmpty = .ok ("--system=" ++ p) := by
  simp [classpath.JavaSystemModules, trimSuffix, pathString, h]

theorem JavaSystemModules_no_suffix_untouched_witness :
    ("lib/modules".data.isSuffixOf "out/jdk/jmods".data) = false ∧
    classpath.JavaSystemModules ["out/jdk/jmods"] true =
      .ok "--system=out/jdk/jmods" :=
  ⟨by decide,
   JavaSystemModules_no_suffix_untouched "out/jdk/jmods" true (by decide)⟩

end SoongJavaBuilder
